import Mathlib

/-!
# Verification of the kekita simulation engine core

Shallow embedding of the tick-driven simulation engine found under
`backend/game/`: creatures, the combat resolver (`combat.py`), the action
resolver of `World.update_cells` (`world.py`), the spatial index
(`spatial_index.py`), stage evolution (`stage_manager.py`, `creature.py`,
`multicellular.py`), the hybrid decision maker
(`hybrid_decision_maker.py`), and a resource-identifier state machine for
`World._resource_id_counter`.

Conventions used throughout the embedding:

* Python integers are `Int`; Python `//` (floor division) is `Int.fdiv`.
* Python float arithmetic is modelled exactly with scaled integers: a
  formula whose constants are decimals with denominator `d` is computed on
  values multiplied by `d` (the scale is stated at each definition), and
  Python `int(n / d)` (truncation toward zero) is `int_trunc_div n d`.
  `random.random()` returns a double `k / 2^53`, modelled by its exact
  numerator.
* Fallible lookups return `Option`; a Python `continue` in the action loop
  is modelled by an `Option WorldState` result being `none`.
* `random.*` draws are oracle parameters (`Oracle`), so every theorem
  quantifies over them.
* Distance comparisons `math.sqrt(dsq) <= c` are replaced by the equivalent
  exact integer comparisons on the squared distance (for the thresholds
  1, 1.5 and 2 used by the source: `dsq = 0`, `dsq ≤ 2`, `dsq ≤ 3`);
  correctly rounded square roots cannot cross these thresholds.
-/

namespace Kekita

/-- Python `int(n / d)` for a positive denominator `d`: truncation of the
exact quotient toward zero. -/
def int_trunc_div (n d : Int) : Int :=
  if 0 ≤ n then n.fdiv d else -((-n).fdiv d)

/-- An exact fraction `num / den` (`den > 0` by convention), used for the
float-valued genetic-variation deltas carried inside trait records. -/
structure Frac where
  num : Int
  den : Int
deriving DecidableEq, Repr

/-- The trait record attached to a creature (`traits` dict).  Only the keys
read by the embedded code are carried: `color`, `speed`, `diet` and the
optional `genetic_variation` sub-dict with keys `speed`, `color` (value
`'varied'`) and `strength`. -/
structure Traits where
  color : String
  speed : Int
  diet : String
  gv_speed : Option Frac
  gv_color_varied : Bool
  gv_strength : Option Frac
deriving DecidableEq, Repr

/-- A creature (`Cell`, `Multicellular` or `Organism`).  All three classes
share the fields of `Creature.__init__`; `get_position()` returns `(x, y)`
for every stage, so no centroid field is needed.  `mouth`/`defense` model
`parts.get('mouth')`/`parts.get('defense')` of stage-3 organisms (absent
otherwise); `colony` is the stage-2 colony handle (the colony id).
`speed` is kept integral (trait speeds are 1-5); the only non-integral
speeds in the source come from the half-unit limb bonus of
`Organism._apply_part_bonuses`, whose fractional part is dropped here —
no claim depends on it. -/
structure Creature where
  id : Int
  player_id : Option Int
  color : String
  speed : Int
  diet : String
  x : Int
  y : Int
  energy : Int
  age : Int
  alive : Bool
  stage : Int
  mouth : Option String
  defense : Option String
  colony : Option Int
  traits : Traits
deriving DecidableEq, Repr

/-- A food item as stored in `World.food`
(`{x, y, id, type, energy_value, region_density}`; the density is never
read back by the embedded code and is omitted). -/
structure FoodItem where
  id : Int
  x : Int
  y : Int
  type : String
  energy_value : Int
deriving DecidableEq, Repr

/-- Oracle for the `random.*` draws of the action resolver and decision
engine: `roll_num / 2^53` is the `random.random()` draw of the
compatibility check, `dirs` the
shuffled cardinal directions of offspring placement, `color` the colour
drawn for `'varied'` colour variation, `dir4` a uniformly drawn cardinal
direction, `limbs`/`defenseChoice` the random part draws of
`Organism._generate_parts`. -/
structure Oracle where
  roll_num : Int
  dirs : List (Int × Int)
  color : String
  dir4 : Int × Int
  limbs : Int
  defenseChoice : String

/-- The denominator of `random.random()` draws: Python doubles in `[0,1)`
are exactly `k / 2^53`. -/
def roll_den : Int := 2 ^ 53

/-- `Creature.__init__` (creature.py lines 13-39): energy 100, age 0,
alive, no parts, no colony; `color`, `speed`, `diet` are taken from the
trait record (the colour is assumed already lower-case, as produced by the
trait extractor). -/
def creature_init (creature_id : Int) (traits : Traits) (x y : Int)
    (stage : Int) (player_id : Option Int) : Creature :=
  { id := creature_id
    player_id := player_id
    color := traits.color
    speed := traits.speed
    diet := traits.diet
    x := x
    y := y
    energy := 100
    age := 0
    alive := true
    stage := stage
    mouth := none
    defense := none
    colony := none
    traits := traits }

/-- A colony of stage-2 creatures (multicellular.py `Colony`); `members`
holds the member creature ids (the source stores object references). -/
structure Colony where
  id : Int
  members : List Int
  shared_energy : Int
deriving DecidableEq, Repr

/-- `Colony.add_member` (multicellular.py lines 16-21). -/
def colony_add_member (col : Colony) (cell : Creature) : Colony :=
  if cell.id ∈ col.members then col
  else { col with
          members := col.members ++ [cell.id]
          shared_energy := col.shared_energy + cell.energy }

/-- `Multicellular.__init__` with `colony=None` (multicellular.py lines
55-74): base creature at stage 2, then a fresh colony whose id is the
creature id, with the creature added as its member. -/
def multicellular_init (creature_id : Int) (traits : Traits) (x y : Int)
    (player_id : Option Int) : Creature × Colony :=
  let base := creature_init creature_id traits x y 2 player_id
  let col0 : Colony := { id := creature_id, members := [], shared_energy := 0 }
  let col1 := colony_add_member col0 base
  ({ base with colony := some creature_id }, col1)

/-- `Organism.__init__` (organism.py lines 10-27): stage-3 creature with
generated parts; mouth from diet, limb count and defense drawn from the
oracle (`random.randint` / `random.choice`), speed raised by
`(limbs - 3) * 0.5` capped at 5 — the half unit of that bonus is dropped
in this integer-speed model.  The `sensors` part only feeds the detection
radius, which is not embedded. -/
def organism_init (creature_id : Int) (traits : Traits) (x y : Int)
    (player_id : Option Int) (orc : Oracle) : Creature :=
  let base := creature_init creature_id traits x y 3 player_id
  let mouth :=
    if traits.diet = "carnivore" then "sharp"
    else if traits.diet = "herbivore" then "grinding"
    else "versatile"
  let speed' := min 5 (base.speed + int_trunc_div (orc.limbs - 3) 2)
  { base with
      mouth := some mouth
      defense := some orc.defenseChoice
      speed := speed' }

/-- `Creature.can_evolve` (creature.py lines 46-61).  `colonies` resolves
the colony handle to the colony record. -/
def can_evolve (c : Creature) (colonies : Int → Option Colony) : Bool :=
  if c.stage = 1 then
    decide (80 < c.energy) && decide (10 < c.age)
  else if c.stage = 2 then
    match c.colony with
    | some h =>
      match colonies h with
      | some col =>
        decide (90 < c.energy) && decide (20 < c.age) &&
          decide (3 ≤ col.members.length)
      | none => false
    | none => false
  else false

/-- `Creature.evolve_cost` (creature.py lines 63-65). -/
def evolve_cost : Int := 50

/-- The stage-1 branch of `StageManager.evolve_creature` (stage_manager.py
lines 23-49): eligibility check, cost check, cost deduction, creation of a
`Multicellular` with the same id, whose energy is then overwritten with
the remaining energy.  The memory transfer and the in-world replacement
are not modelled; the stage-2 branch (lines 51-77) is out of scope here. -/
def evolve_creature_stage1 (c : Creature) (colonies : Int → Option Colony) :
    Option (Creature × Colony) :=
  if ¬ can_evolve c colonies then none
  else if c.energy < evolve_cost then none
  else
    let remaining := c.energy - evolve_cost
    let nc := multicellular_init c.id c.traits c.x c.y c.player_id
    some ({ nc.1 with energy := remaining }, nc.2)

/-- `Combat.calculate_damage` (combat.py lines 11-43).  The three float
multipliers are carried scaled by 10 each (`1.0 + (stage-1)*0.2` becomes
`10 + (stage-1)*2`, and so on), so `int(base * sm * tb * sb)` is the
truncated quotient of the scaled product by 1000. -/
def calculate_damage (attacker _defender : Creature) : Int :=
  let base_damage : Int := 10 + attacker.energy.fdiv 10 + attacker.stage * 5
  let stage_multiplier10 : Int := 10 + (attacker.stage - 1) * 2
  let trait_bonus10 : Int :=
    if attacker.diet = "carnivore" then 13
    else if attacker.stage = 3 ∧ attacker.mouth = some "sharp" then 12
    else 10
  let speed_bonus10 : Int := 10 + (attacker.speed - 3)
  max 1 (int_trunc_div (base_damage * stage_multiplier10 * trait_bonus10 * speed_bonus10) 1000)

/-- `Combat.apply_defense` (combat.py lines 46-72); the defense fraction
is scaled by 10 (`armor = 0.5` becomes 5), so `int(damage * (1 - dv))`
is the truncated quotient of `damage * (10 - dv10)` by 10. -/
def apply_defense (damage : Int) (defender : Creature) : Int :=
  let defense_value10 : Int :=
    if defender.stage = 3 then
      match defender.defense with
      | some "armor" => 5
      | some "spikes" => 3
      | some "camouflage" => 2
      | _ => 0
    else 0
  max 1 (int_trunc_div (damage * (10 - defense_value10)) 10)

/-- Result of `Combat.resolve_combat`: the returned triple plus the final
states of the two (mutated) creatures. -/
structure CombatResult where
  damage : Int
  defender_killed : Bool
  energy_gained : Int
  attacker : Creature
  defender : Creature
deriving DecidableEq, Repr

/-- `Combat.resolve_combat` (combat.py lines 75-116).  Note that the
defender's energy is set to `0` *before* the carnivore gain reads
`defender.energy + final_damage` (line 108), so the gain only sees the
damage value, not the pre-death energy. -/
def resolve_combat (attacker defender : Creature) : CombatResult :=
  let raw_damage := calculate_damage attacker defender
  let final_damage := apply_defense raw_damage defender
  let d1 : Creature := { defender with energy := defender.energy - final_damage }
  if d1.energy ≤ 0 then
    let d2 : Creature := { d1 with energy := 0, alive := false }
    if attacker.diet = "carnivore" then
      let base_energy := d2.stage * 15 + (d2.energy + final_damage).fdiv 5
      let energy_gained := min 50 base_energy
      let a1 : Creature := { attacker with energy := min 100 (attacker.energy + energy_gained) }
      let a2 : Creature := { a1 with energy := max 0 (a1.energy - 3) }
      { damage := final_damage, defender_killed := true,
        energy_gained := energy_gained, attacker := a2, defender := d2 }
    else
      let a2 : Creature := { attacker with energy := max 0 (attacker.energy - 3) }
      { damage := final_damage, defender_killed := true,
        energy_gained := 0, attacker := a2, defender := d2 }
  else
    let a2 : Creature := { attacker with energy := max 0 (attacker.energy - 3) }
    { damage := final_damage, defender_killed := false,
      energy_gained := 0, attacker := a2, defender := d1 }

/-- `Combat.can_attack` (combat.py lines 118-159); `distance <= 1.5` on
integer coordinates is exactly `dist_sq ≤ 2`. -/
def can_attack (creature target : Creature) : Bool :=
  creature.alive && target.alive &&
    !(decide (creature.energy < 50)) &&
    !(decide (creature.id = target.id)) &&
    !(decide (creature.player_id = target.player_id)) &&
    decide ((target.x - creature.x)^2 + (target.y - creature.y)^2 ≤ 2)

/-- The bucket size of the world's spatial index: `World.__init__` builds
`SpatialIndex(width, height, cell_size=5)`. -/
def cell_size : Int := 5

/-- An entry of the spatial index grid (`add_object`:
`{id, x, y, type}`). -/
structure IndexEntry where
  id : Int
  x : Int
  y : Int
  type : String
deriving DecidableEq, Repr

/-- A record returned by `get_nearby`.  The source carries
`dist = dist_sq ** 0.5`; the embedding carries the exact squared distance
`dist_sq` from which that square root is taken. -/
structure NearbyRec where
  id : Int
  x : Int
  y : Int
  type : String
  dist_sq : Int
deriving DecidableEq, Repr

/-- Membership of an entry's bucket in the window of buckets scanned by
`get_nearby` (spatial_index.py lines 87-93): the scanned buckets are
`center_grid + (dx, dy)` for `dx, dy ∈ [-radius_cells, radius_cells]`,
which an entry's bucket `(x // 5, y // 5)` hits exactly when both bucket
coordinates are within `radius_cells` of the centre bucket. -/
def in_window (x y radius : Int) (o : IndexEntry) : Bool :=
  let cgx := x.fdiv cell_size
  let cgy := y.fdiv cell_size
  let rc := (radius + cell_size - 1).fdiv cell_size
  let gx := o.x.fdiv cell_size
  let gy := o.y.fdiv cell_size
  decide (cgx - rc ≤ gx) && decide (gx ≤ cgx + rc) &&
    decide (cgy - rc ≤ gy) && decide (gy ≤ cgy + rc)

/-- The `obj_type is None or obj['type'] == obj_type` filter of
`get_nearby` (spatial_index.py line 96). -/
def type_matches (obj_type : Option String) (o : IndexEntry) : Bool :=
  match obj_type with
  | none => true
  | some t => decide (o.type = t)

/-- The exact distance test of `get_nearby` (spatial_index.py lines
98-99): `dist_sq <= radius * radius`. -/
def dist_ok (x y radius : Int) (o : IndexEntry) : Bool :=
  decide ((o.x - x)^2 + (o.y - y)^2 ≤ radius * radius)

/-- The record built for a passing entry (spatial_index.py lines
100-102). -/
def to_rec (x y : Int) (o : IndexEntry) : NearbyRec :=
  { id := o.id, x := o.x, y := o.y, type := o.type
    dist_sq := (o.x - x)^2 + (o.y - y)^2 }

/-- `SpatialIndex.get_nearby` (spatial_index.py lines 74-104).  The index
is modelled by its list of entries; each entry lives in the bucket
computed from its coordinates by `add_object`, so iterating the window of
buckets and testing each entry is the filter below (the source's
bucket-by-bucket output order is a permutation of this list; all claims
about the result are order-insensitive). -/
def get_nearby (entries : List IndexEntry) (x y radius : Int)
    (obj_type : Option String) : List NearbyRec :=
  (entries.filter fun o =>
      type_matches obj_type o && in_window x y radius o && dist_ok x y radius o
    ).map (to_rec x y)

/-- A brute-force distance scan over the same entries: no bucket window,
just the type filter and the exact distance test. -/
def brute_force_scan (entries : List IndexEntry) (x y radius : Int)
    (obj_type : Option String) : List NearbyRec :=
  (entries.filter fun o => type_matches obj_type o && dist_ok x y radius o
    ).map (to_rec x y)

/-- `SpatialIndex.rebuild` (spatial_index.py lines 110-125): clear, then
add every living creature and every food item. -/
def rebuild (creatures : List Creature) (food : List FoodItem) :
    List IndexEntry :=
  (creatures.filter (·.alive)).map
      (fun c => { id := c.id, x := c.x, y := c.y, type := "creature" })
    ++ food.map (fun f => { id := f.id, x := f.x, y := f.y, type := "food" })

/-- An action dict passed to `World.update_cells`.  `drink` and `hide`
can be produced by the rule engine; `update_cells` has no branch for them
(they fall through to the death check and ageing).  The actions `signal`,
`claim`, `cooperate` and `migrate` are not embedded (their handlers live
in the social/territory/resource managers). -/
inductive Action where
  | move (dx dy : Int)
  | eat (target_id : Option Int)
  | flee (dx dy : Int)
  | attack (target_id : Option Int)
  | reproduce
  | drink (target_id : Option Int)
  | hide (target_id : Option Int)
deriving DecidableEq, Repr

/-- The world state read and mutated by the action resolver.  `counter`
is `World._resource_id_counter`; `is_lethal` is
`food_type_config[t]['is_lethal']`; `canAccess` models
`ResourceManager.can_access_resource`, whose source file
(`resource_manager.py`) is not part of the sources and is therefore kept
abstract. -/
structure WorldState where
  width : Int
  height : Int
  cells : List Creature
  food : List FoodItem
  counter : Int
  is_lethal : String → Bool
  canAccess : Int → Int → Bool

/-- First element satisfying `p`, with its index — this models Python's
`next((x for x in l if p(x)), None)` and for-loop searches, where the
found *object* is subsequently mutated in place (here: updated at its
index). -/
def findWithIdx (p : α → Bool) : List α → Option (Nat × α)
  | [] => none
  | a :: as =>
    if p a then some (0, a)
    else (findWithIdx p as).map (fun q => (q.1 + 1, q.2))

/-- The movement cost of a `move` action (world.py lines 374-380):
`max(0.3, 1.0 - (stage-1)*0.1 - (speed-3)*0.15)`, then `int(c)` if
`c ≥ 1.0` else `1` if `c ≥ 0.5` else `0` — computed here scaled by 100. -/
def move_cost (stage : Int) (speed : Int) : Int :=
  let c100 : Int := max 30 (100 - (stage - 1) * 10 - (speed - 3) * 15)
  if 100 ≤ c100 then c100.fdiv 100 else if 50 ≤ c100 then 1 else 0

/-- The flee cost (world.py line 470): `max(1, 3 - speed // 2)`. -/
def flee_cost (speed : Int) : Int := max 1 (3 - speed.fdiv 2)

/-- The reproduction cost (world.py line 665):
`max(40, 50 - (stage - 1) * 5)`. -/
def reproduce_cost (stage : Int) : Int := max 40 (50 - (stage - 1) * 5)

/-- The compatibility value of a reproduction attempt (world.py lines
581-587), scaled by 10: `min(1.0, 0.7 + 0.1·[same colour] +
0.1·[same diet])` becomes `min 10 (7 + ...)`. -/
def compatibility10 (c p : Creature) : Int :=
  min 10 ((7 : Int) + (if c.color = p.color then 1 else 0)
    + (if c.diet = p.diet then 1 else 0))

/-- The failed compatibility roll `compatibility_roll > compatibility`
(world.py lines 590-591): with the roll `n / 2^53` and the compatibility
`c10 / 10` this is exactly `n * 10 > c10 * 2^53`. -/
def roll_fails (orc : Oracle) (c10 : Int) : Bool :=
  decide (c10 * roll_den < orc.roll_num * 10)

/-- Clamping of a target coordinate to the grid
(`max(0, min(width - 1, v))`). -/
def clamp_coord (bound v : Int) : Int := max 0 (min (bound - 1) v)

/-- The creature state after an accepted move (world.py lines 370-381):
clamped target position, movement cost deducted. -/
def moved (w : WorldState) (c : Creature) (dx dy : Int) : Creature :=
  { c with x := clamp_coord w.width (c.x + dx),
           y := clamp_coord w.height (c.y + dy),
           energy := c.energy - move_cost c.stage c.speed }

/-- The offspring placement scan (world.py lines 600-607): walk the
shuffled cardinal directions and return the first clamped neighbour cell
not occupied by a living creature (the actor itself counts). -/
def findFreeCell (w : WorldState) (px py : Int) (dirs : List (Int × Int)) :
    Option (Int × Int) :=
  dirs.findSome? fun d =>
    let nx := clamp_coord w.width (px + d.1)
    let ny := clamp_coord w.height (py + d.2)
    if w.cells.any (fun o => o.alive && decide (o.x = nx) && decide (o.y = ny))
    then none else some (nx, ny)

/-- Offspring trait derivation (world.py lines 610-629): copy the parent's
traits and apply the genetic variation deltas — speed scaled by
`1 + modifier` (truncated, clamped to `[1, 5]`), colour redrawn when the
variation is `'varied'`. -/
def offspring_traits (parent : Traits) (orc : Oracle) : Traits :=
  let t1 :=
    match parent.gv_speed with
    | some m =>
      { parent with
          speed := max 1 (min 5 (int_trunc_div (parent.speed * (m.den + m.num)) m.den)) }
    | none => parent
  if t1.gv_color_varied then { t1 with color := orc.color } else t1

/-- Offspring starting energy (world.py lines 659-662): 50, scaled by
`1 + strength` when a strength variation is present. -/
def offspring_energy (parent : Traits) : Int :=
  match parent.gv_strength with
  | some s => int_trunc_div (50 * (s.den + s.num)) s.den
  | none => 50

/-- Offspring construction (world.py lines 631-663): a creature of the
parent's stage with the derived traits and starting energy.  For a
stage-2 parent the fresh colony created by `Multicellular.__init__` is
not tracked by the world and is dropped here. -/
def make_offspring (w : WorldState) (parent : Creature) (nx ny : Int)
    (orc : Oracle) : Creature :=
  let tr := offspring_traits parent.traits orc
  let base :=
    if parent.stage = 1 then creature_init w.counter tr nx ny 1 parent.player_id
    else if parent.stage = 2 then (multicellular_init w.counter tr nx ny parent.player_id).1
    else organism_init w.counter tr nx ny parent.player_id orc
  { base with energy := offspring_energy parent.traits }

/-- The universal post-action step (world.py lines 815-827): mark the
creature dead when its energy is exhausted, then increment its age. -/
def post_action (c : Creature) : Creature :=
  let c2 := if c.energy ≤ 0 ∧ c.alive then { c with alive := false } else c
  { c2 with age := c2.age + 1 }

/-- Partner selection of the `reproduce` branch (world.py lines 547-565):
the first other living creature at the actor's exact position, else the
first other living creature within Chebyshev distance 1 — in population
order, with *no* energy filter. -/
def select_partner (cells : List Creature) (c : Creature) :
    Option (Nat × Creature) :=
  match findWithIdx (fun o : Creature => !(decide (o.id = c.id)) && o.alive &&
      decide (o.x = c.x) && decide (o.y = c.y)) cells with
  | some q => some q
  | none => findWithIdx (fun o : Creature => !(decide (o.id = c.id)) && o.alive &&
      decide (|o.x - c.x| ≤ 1) && decide (|o.y - c.y| ≤ 1)) cells

/-- One action branch of the `update_cells` loop body (world.py lines
350-813) for the creature `c` at index `i`.  The result is `none` exactly
when the source executes `continue` (skipping the death check and the age
increment); otherwise it is the world after the branch's mutations.
Position reads use `(c.x, c.y)`: `get_position()` returns exactly that
for every stage. -/
def resolveAction (w : WorldState) (i : Nat) (c : Creature) (a : Action)
    (orc : Oracle) : Option WorldState :=
  match a with
  | .move dx dy =>
    let nx := clamp_coord w.width (c.x + dx)
    let ny := clamp_coord w.height (c.y + dy)
    let collision := w.cells.any fun o =>
      o.alive && !(decide (o.id = c.id)) && decide (o.x = nx) && decide (o.y = ny)
    if collision then some w
    else
      let c' : Creature :=
        { c with x := nx, y := ny, energy := c.energy - move_cost c.stage c.speed }
      some { w with cells := w.cells.set i c' }
  | .eat target_id =>
    let found :=
      match target_id with
      | some tid =>
        if tid ≠ 0 then findWithIdx (fun f : FoodItem => decide (f.id = tid)) w.food
        else findWithIdx
          (fun f : FoodItem => decide (|f.x - c.x| ≤ 1) && decide (|f.y - c.y| ≤ 1)) w.food
      | none => findWithIdx
          (fun f : FoodItem => decide (|f.x - c.x| ≤ 1) && decide (|f.y - c.y| ≤ 1)) w.food
    match found with
    | none => some w
    | some (j, f) =>
      if ¬ w.canAccess c.id f.id then none
      else
        let w1 := { w with food := w.food.eraseIdx j }
        if w.is_lethal f.type then
          let c' : Creature := { c with energy := 0, alive := false }
          some { w1 with cells := w1.cells.set i c' }
        else
          let ev :=
            if 0 < f.energy_value ∧ c.stage = 3 ∧ c.mouth = some "sharp"
            then int_trunc_div (f.energy_value * 133) 100
            else f.energy_value
          if 0 < ev then
            let c' : Creature := { c with energy := min 100 (c.energy + ev) }
            some { w1 with cells := w1.cells.set i c' }
          else
            let c' : Creature := { c with energy := max 0 (c.energy + ev) }
            some { w1 with cells := w1.cells.set i c' }
  | .flee dx dy =>
    let nx := clamp_coord w.width (c.x + dx)
    let ny := clamp_coord w.height (c.y + dy)
    let c' : Creature :=
      { c with x := nx, y := ny, energy := c.energy - flee_cost c.speed }
    some { w with cells := w.cells.set i c' }
  | .attack target_id =>
    let found :=
      match target_id with
      | some tid =>
        if tid ≠ 0 then
          findWithIdx (fun o : Creature => decide (o.id = tid) && o.alive) w.cells
        else
          findWithIdx (fun o : Creature => !(decide (o.id = c.id)) && o.alive &&
            !(decide (o.player_id = c.player_id)) &&
            decide ((o.x - c.x)^2 + (o.y - c.y)^2 ≤ 2)) w.cells
      | none =>
        findWithIdx (fun o : Creature => !(decide (o.id = c.id)) && o.alive &&
          !(decide (o.player_id = c.player_id)) &&
          decide ((o.x - c.x)^2 + (o.y - c.y)^2 ≤ 2)) w.cells
    match found with
    | none => some w
    | some (j, t) =>
      if can_attack c t then
        let res := resolve_combat c t
        some { w with cells := (w.cells.set i res.attacker).set j res.defender }
      else some w
  | .reproduce =>
    if c.energy < 88 then none
    else
      match select_partner w.cells c with
      | none => none
      | some (j, p) =>
        if p.energy < 88 then none
        else if roll_fails orc (compatibility10 c p) then none
        else
          match findFreeCell w c.x c.y orc.dirs with
          | none => some w
          | some pos =>
            let offspring := make_offspring w c pos.1 pos.2 orc
            let cost := reproduce_cost c.stage
            let c' : Creature := { c with energy := c.energy - cost }
            let p' : Creature := { p with energy := p.energy - cost }
            let cells1 := (w.cells.set i c').set j p'
            some { w with cells := cells1 ++ [offspring], counter := w.counter + 1 }
  | .drink _ => some w
  | .hide _ => some w

/-- The full `update_cells` loop body for the creature at index `i`
(world.py lines 332-827): skip dead creatures and creatures without an
action (`continue`, i.e. no ageing), run the action branch, and unless it
hit a `continue`, apply the death check and increment the age. -/
def processCreature (w : WorldState) (i : Nat) (act : Option Action)
    (orc : Oracle) : WorldState :=
  match w.cells.get? i with
  | none => w
  | some c =>
    if ¬ c.alive then w
    else
      match act with
      | none => w
      | some a =>
        match resolveAction w i c a orc with
        | none => w
        | some w1 =>
          match w1.cells.get? i with
          | none => w1
          | some c1 =>
            { w1 with cells := w1.cells.set i (post_action c1) }

/-- Abstraction of the world fields that govern resource identifiers:
the creature ids of `World.cells` (creatures are never deleted), the food
list, and `World._resource_id_counter`. -/
structure RWorld where
  cells : List Int
  food : List FoodItem
  counter : Int

/-- The events that touch `World.food` or consume counter values:

* `spawn_food` — one successful iteration of `World.spawn_resources`
  (world.py lines 193-205): a food item with id `counter` is appended and
  the counter is incremented;
* `spawn_creature` — an offspring (world.py lines 631-672) or predator
  (environment.py lines 185-195) is created with id `counter` and the
  counter is incremented;
* `eat_food` — an eat action removes one food item (world.py lines
  424-426);
* `flood` — `Environment._trigger_flood` (environment.py lines 328-337)
  removes every food item within Euclidean distance `r` of the flood
  centre (`sqrt(dsq) ≤ r ↔ dsq ≤ r²` on integers). -/
inductive WStep : RWorld → RWorld → Prop where
  | spawn_food (s : RWorld) (x y : Int) (t : String) (v : Int) :
      WStep s ⟨s.cells, s.food ++ [⟨s.counter, x, y, t, v⟩], s.counter + 1⟩
  | spawn_creature (s : RWorld) :
      WStep s ⟨s.cells ++ [s.counter], s.food, s.counter + 1⟩
  | eat_food (s : RWorld) (j : Nat) (f : FoodItem)
      (hf : s.food.get? j = some f) :
      WStep s ⟨s.cells, s.food.eraseIdx j, s.counter⟩
  | flood (s : RWorld) (cx cy r : Int) :
      WStep s ⟨s.cells,
        s.food.filter (fun f => decide (r * r < (f.x - cx)^2 + (f.y - cy)^2)),
        s.counter⟩

/-- The initial world: no food, counter 1000 (world.py line 34), and the
initial creatures created by the server with small ids. -/
def RInit (cells0 : List Int) : RWorld := ⟨cells0, [], 1000⟩

/-- Reachability along resource events. -/
def RReach : RWorld → RWorld → Prop := Relation.ReflTransGen WStep

/-- Identifier sanity: every id in use (food or creature) is below the
counter, and no id is in use twice. -/
def RInv (s : RWorld) : Prop :=
  (∀ a ∈ s.food.map (·.id) ++ s.cells, a < s.counter) ∧
    (s.food.map (·.id) ++ s.cells).Nodup

/-- An identifier that is dead: not in use by any food item or creature,
and below the counter, so no later spawn can ever re-assign it. -/
def RFresh (cid : Int) (s : RWorld) : Prop :=
  cid ∉ s.food.map (·.id) ∧ cid ∉ s.cells ∧ cid < s.counter

/-- Trace state after spawning one food item from the initial world. -/
def rw_s1 : RWorld := ⟨[1], [⟨1000, 3, 4, "apple", 30⟩], 1001⟩

/-- Trace state after that food item is eaten. -/
def rw_s2 : RWorld := ⟨[1], [], 1001⟩

/-- Trace state after one further food spawn. -/
def rw_t : RWorld := ⟨[1], [⟨1001, 5, 5, "banana", 30⟩], 1002⟩


/-- A nearby food record as handed to the decision engine by
`World.get_nearby` (`{x, y, id, type, dist}`); `dist_sq` is the exact
squared distance underlying the float `dist`. -/
structure NearbyFood where
  x : Int
  y : Int
  id : Int
  type : String
  dist_sq : Int
deriving DecidableEq, Repr

/-- A nearby enemy record from `World.get_nearby`
(`{x, y, id, dist, energy, stage}`). -/
structure NearbyEnemy where
  x : Int
  y : Int
  id : Int
  dist_sq : Int
  energy : Int
  stage : Int
deriving DecidableEq, Repr

/-- The `world_state['nearby']` dict passed to the decision maker: food
and enemies, each sorted by distance (the rule engine only reads the
heads and scans in order). -/
structure WorldView where
  food : List NearbyFood
  enemy : List NearbyEnemy
deriving DecidableEq, Repr

/-- `HybridDecisionMaker._direction_to` (hybrid_decision_maker.py lines
244-262); the random draw at the target is the oracle direction. -/
def direction_to (cx cy tx ty : Int) (orc : Oracle) : Int × Int :=
  let dx : Int := if cx < tx then 1 else if tx < cx then -1 else 0
  let dy : Int := if cy < ty then 1 else if ty < cy then -1 else 0
  if dx = 0 ∧ dy = 0 then orc.dir4 else (dx, dy)

/-- `HybridDecisionMaker._direction_from` (lines 264-276). -/
def direction_from (cx cy tx ty : Int) (orc : Oracle) : Int × Int :=
  let d := direction_to cx cy tx ty orc
  (-d.1, -d.2)

/-- Rules 4-6 of `rule_based_decision`. -/
def rule_based_repro (cell : Creature) (ws : WorldView) (orc : Oracle) :
    Action :=
  if 88 ≤ cell.energy then
    match ws.enemy.find? (fun e => decide (e.dist_sq ≤ 1)) with
    | some _ => .reproduce
    | none =>
      match ws.enemy with
      | e0 :: _ =>
        let d := direction_to cell.x cell.y e0.x e0.y orc
        .move d.1 d.2
      | [] => .reproduce
  else
    match ws.food with
    | f0 :: _ =>
      let d := direction_to cell.x cell.y f0.x f0.y orc
      .move d.1 d.2
    | [] => .move orc.dir4.1 orc.dir4.2

/-- Rules 3-6 of `rule_based_decision`. -/
def rule_based_tail (cell : Creature) (ws : WorldView) (orc : Oracle) :
    Action :=
  match ws.enemy with
  | e0 :: _ =>
    if e0.dist_sq ≤ 3 ∧ cell.energy < 50 then
      let d := direction_from cell.x cell.y e0.x e0.y orc
      .flee d.1 d.2
    else if 50 ≤ cell.energy ∧ e0.dist_sq ≤ 2 ∧
        (cell.diet = "carnivore" ∨ e0.energy < cell.energy) then
      .attack (some e0.id)
    else rule_based_repro cell ws orc
  | [] => rule_based_repro cell ws orc

/-- Rules 2-6 of `rule_based_decision` (reached when rule 1 does not
return). -/
def rule_based_rest (cell : Creature) (ws : WorldView) (orc : Oracle) :
    Action :=
  match ws.food, ws.enemy with
  | f0 :: _, _ =>
    if cell.energy < 20 then
      let d := direction_to cell.x cell.y f0.x f0.y orc
      .move d.1 d.2
    else rule_based_tail cell ws orc
  | [], _ => rule_based_tail cell ws orc

/-- `HybridDecisionMaker.rule_based_decision` (hybrid_decision_maker.py
lines 142-242).  Float distance thresholds become the equivalent squared
comparisons: `dist < 1.5 ↔ dist_sq ≤ 2`, `dist < 2 ↔ dist_sq ≤ 3`,
`dist ≤ 1 ↔ dist_sq ≤ 1`, `dist ≤ 1.5 ↔ dist_sq ≤ 2`. -/
def rule_based_decision (cell : Creature) (ws : WorldView) (orc : Oracle) :
    Action :=
  match ws.food with
  | f0 :: _ =>
    if f0.dist_sq ≤ 2 then
      if f0.type = "water" then .drink (some f0.id)
      else if f0.type = "shelter" then
        match ws.enemy with
        | e0 :: _ =>
          if e0.dist_sq ≤ 3 then .hide (some f0.id)
          else rule_based_rest cell ws orc
        | [] => rule_based_rest cell ws orc
      else .eat (some f0.id)
    else rule_based_rest cell ws orc
  | [] => rule_based_rest cell ws orc

/-- `HybridDecisionMaker.is_critical_situation` (lines 120-140):
low energy, or the nearest enemy at distance `< 1` (squared distance
`< 1`, i.e. the same cell). -/
def is_critical_situation (cell : Creature) (ws : WorldView) : Bool :=
  if cell.energy < 20 then true
  else
    match ws.enemy with
    | e0 :: _ => decide (e0.dist_sq < 1)
    | [] => false

/-- Outcome of one awaited inference call: a parsed value, a timeout
(`asyncio.TimeoutError`), or any other failure (network error raised by
`LLMManager.chat`; single-call parsing itself never raises). -/
inductive LLMOutcome (α : Type) where
  | ok (val : α)
  | timeout
  | failure
deriving DecidableEq, Repr

/-- `HybridDecisionMaker.decide` (hybrid_decision_maker.py lines 22-65),
called `decide_action` here to keep Lean's `decide` usable: critical
situations bypass inference; otherwise a successful call's parsed action
is used and both timeout and error fall back to the rule engine. -/
def decide_action (cell : Creature) (ws : WorldView)
    (llm : LLMOutcome Action) (orc : Oracle) : Action :=
  if is_critical_situation cell ws then rule_based_decision cell ws orc
  else
    match llm with
    | .ok a => a
    | .timeout => rule_based_decision cell ws orc
    | .failure => rule_based_decision cell ws orc

/-- `HybridDecisionMaker.decide_batch` (hybrid_decision_maker.py lines
77-118).  `batchOut` abstracts the awaited batch call
`chat` + `parse_batch` as the id-to-action partial map it yields (with
`parse_batch`'s random-move fill-in for absent ids); `indivOut` gives the
outcome of the per-creature `_call_llm` coroutine used by the fallback
path.  On batch timeout or failure every creature is retried with an
individual inference call, and only the creatures whose individual call
also fails receive the rule-based action. -/
def decide_batch (pairs : List (Creature × WorldView))
    (batchOut : LLMOutcome (Int → Option Action))
    (indivOut : Int → LLMOutcome Action) (orc : Oracle) :
    List (Int × Action) :=
  if pairs.isEmpty then []
  else
    match batchOut with
    | .ok m =>
      pairs.map fun pr => (pr.1.id, (m pr.1.id).getD (.move orc.dir4.1 orc.dir4.2))
    | .timeout =>
      pairs.map fun pr =>
        (pr.1.id, match indivOut pr.1.id with
          | .ok a => a
          | .timeout => rule_based_decision pr.1 pr.2 orc
          | .failure => rule_based_decision pr.1 pr.2 orc)
    | .failure =>
      pairs.map fun pr =>
        (pr.1.id, match indivOut pr.1.id with
          | .ok a => a
          | .timeout => rule_based_decision pr.1 pr.2 orc
          | .failure => rule_based_decision pr.1 pr.2 orc)

/-! ### Concrete instances used by counterexamples and witnesses -/

/-- A plain trait record. -/
def base_traits : Traits :=
  { color := "blue", speed := 3, diet := "omnivore",
    gv_speed := none, gv_color_varied := false, gv_strength := none }

/-- A plain stage-1 creature; instances below override single fields. -/
def base_creature : Creature :=
  { id := 0, player_id := some 1, color := "blue", speed := 3,
    diet := "omnivore", x := 0, y := 0, energy := 50, age := 0,
    alive := true, stage := 1, mouth := none, defense := none,
    colony := none, traits := base_traits }

/-- A fixed oracle (roll 0, the cardinal directions in order). -/
def orc0 : Oracle :=
  { roll_num := 0, dirs := [(0, -1), (0, 1), (-1, 0), (1, 0)],
    color := "red", dir4 := (0, 1), limbs := 3, defenseChoice := "none" }

/-- World with a single living creature of energy 1 and speed 1 about to
flee (for the energy lower-bound claim). -/
def w_flee : WorldState :=
  { width := 20, height := 20,
    cells := [{ base_creature with id := 1, x := 5, y := 5, energy := 1, speed := 1 }],
    food := [], counter := 1000,
    is_lethal := fun _ => false, canAccess := fun _ _ => true }

/-- Carnivore attacker (energy 60, stage 1, speed 3) for the kill-gain
claim. -/
def atk3 : Creature :=
  { base_creature with id := 1, diet := "carnivore", energy := 60, x := 5, y := 5 }

/-- Defender (energy 20, stage 1) for the kill-gain claim. -/
def def3 : Creature :=
  { base_creature with id := 2, player_id := some 2, energy := 20, x := 5, y := 6 }

/-- The reproducing actor (energy 90) of the partner-selection claim. -/
def c5a : Creature := { base_creature with id := 1, x := 5, y := 5, energy := 90 }

/-- The first adjacent neighbour in population order, with energy 10. -/
def c5b : Creature := { base_creature with id := 2, x := 5, y := 6, energy := 10 }

/-- A second adjacent neighbour with energy 90 — an eligible partner the
code never considers. -/
def c5c : Creature := { base_creature with id := 3, x := 6, y := 5, energy := 90 }

/-- World for the reproduction-partner claim: the actor (energy 90) has
two adjacent living neighbours — the first in population order has energy
10, the second energy 90. -/
def w_rep : WorldState :=
  { width := 20, height := 20, cells := [c5a, c5b, c5c],
    food := [], counter := 1000,
    is_lethal := fun _ => false, canAccess := fun _ _ => true }

/-- A living creature of age 7 (for the ageing claim). -/
def c6a : Creature :=
  { base_creature with id := 1, x := 5, y := 5, energy := 50, age := 7 }

/-- World with a single living creature of age 7 (for the ageing claim). -/
def w_age : WorldState :=
  { width := 20, height := 20, cells := [c6a],
    food := [], counter := 1000,
    is_lethal := fun _ => false, canAccess := fun _ _ => true }

/-- A non-critical creature (energy 60) for the inference-fallback claim. -/
def c7 : Creature := { base_creature with id := 1, x := 5, y := 5, energy := 60 }

/-- Its neighbourhood: one apple at distance 1, no enemies — the rule
engine deterministically answers `eat 7` here. -/
def ws7 : WorldView :=
  { food := [{ x := 5, y := 6, id := 7, type := "apple", dist_sq := 1 }],
    enemy := [] }

/-- A stage-1 creature with age 11 and energy 85 (evolution scenario). -/
def c8 : Creature :=
  { base_creature with id := 42, x := 3, y := 4, energy := 85, age := 11 }

/-- The acting creature of the move-semantics witness. -/
def c4a : Creature := { base_creature with id := 1, x := 5, y := 5, energy := 50 }

/-- A living neighbour occupying the cell south of `c4a`. -/
def c4b : Creature := { base_creature with id := 2, x := 5, y := 6, energy := 50 }

/-- World for the move-semantics witness: the actor and a blocking living
neighbour. -/
def w_move : WorldState :=
  { width := 20, height := 20, cells := [c4a, c4b],
    food := [], counter := 1000,
    is_lethal := fun _ => false, canAccess := fun _ _ => true }


/-- Creatures and food for the spatial-index witness. -/
def idx_creatures : List Creature :=
  [{ base_creature with id := 1, x := 2, y := 3 },
   { base_creature with id := 2, x := 14, y := 3 },
   { base_creature with id := 3, x := 4, y := 4, alive := false }]

/-- Food items for the spatial-index witness. -/
def idx_food : List FoodItem :=
  [{ id := 1000, x := 4, y := 4, type := "apple", energy_value := 30 },
   { id := 1001, x := 19, y := 19, type := "banana", energy_value := -28 }]

/-! ## Helper lemmas -/

theorem findWithIdx_some {α : Type} {p : α → Bool} {l : List α} {i : Nat} {a : α}
    (h : findWithIdx p l = some (i, a)) : p a = true ∧ l.get? i = some a := by
  induction l generalizing i with
  | nil => simp [findWithIdx] at h
  | cons b bs ih =>
    simp only [findWithIdx] at h
    by_cases hb : p b
    · rw [if_pos hb] at h
      simp only [Option.some.injEq, Prod.mk.injEq] at h
      obtain ⟨hi, ha⟩ := h
      subst hi; subst ha
      exact ⟨hb, rfl⟩
    · rw [if_neg hb] at h
      cases hq : findWithIdx p bs with
      | none => rw [hq] at h; simp at h
      | some q =>
        rw [hq] at h
        simp only [Option.map_some', Option.some.injEq, Prod.mk.injEq] at h
        obtain ⟨hi, ha⟩ := h
        subst hi; subst ha
        obtain ⟨hp, hg⟩ := ih hq
        exact ⟨hp, by simpa using hg⟩

theorem select_partner_props {cells : List Creature} {c : Creature} {j : Nat}
    {p : Creature} (h : select_partner cells c = some (j, p)) :
    cells.get? j = some p ∧ p.id ≠ c.id ∧ p.alive = true ∧
      |p.x - c.x| ≤ 1 ∧ |p.y - c.y| ≤ 1 := by
  unfold select_partner at h
  cases hs : findWithIdx (fun o : Creature => !(decide (o.id = c.id)) && o.alive &&
      decide (o.x = c.x) && decide (o.y = c.y)) cells with
  | some q =>
    rw [hs] at h
    simp only [Option.some.injEq] at h
    subst h
    obtain ⟨hp, hg⟩ := findWithIdx_some hs
    simp only [Bool.and_eq_true, Bool.not_eq_true', decide_eq_false_iff_not,
      decide_eq_true_eq] at hp
    refine ⟨hg, hp.1.1.1, hp.1.1.2, ?_, ?_⟩
    · rw [hp.1.2]; simp
    · rw [hp.2]; simp
  | none =>
    rw [hs] at h
    simp only at h
    obtain ⟨hp, hg⟩ := findWithIdx_some h
    simp only [Bool.and_eq_true, Bool.not_eq_true', decide_eq_false_iff_not,
      decide_eq_true_eq] at hp
    exact ⟨hg, hp.1.1.1, hp.1.1.2, hp.1.2, hp.2⟩

theorem post_action_age (c : Creature) : (post_action c).age = c.age + 1 := by
  unfold post_action
  split <;> rfl

theorem resolve_combat_attacker_age (a d : Creature) :
    (resolve_combat a d).attacker.age = a.age := by
  simp only [resolve_combat]
  split_ifs <;> rfl

theorem length_pos_of_get? {α : Type} {l : List α} {i : Nat} {a : α}
    (h : l.get? i = some a) : i < l.length := by
  obtain ⟨hl, -⟩ := List.get?_eq_some.mp h
  exact hl

theorem can_attack_ne {c t : Creature} (h : can_attack c t = true) :
    t.id ≠ c.id := by
  intro he
  unfold can_attack at h
  rw [he] at h
  simp at h

theorem resolveAction_actor {w : WorldState} {i : Nat} {c : Creature}
    {a : Action} {orc : Oracle} {w1 : WorldState}
    (hc : w.cells.get? i = some c)
    (h : resolveAction w i c a orc = some w1) :
    ∃ c1, w1.cells.get? i = some c1 ∧ c1.age = c.age := by
  have hlen : i < w.cells.length := length_pos_of_get? hc
  cases a with
  | move dx dy =>
    simp only [resolveAction] at h
    split at h
    · cases h
      exact ⟨c, hc, rfl⟩
    · cases h
      exact ⟨_, by dsimp only; exact List.get?_set_eq_of_lt _ hlen, by rfl⟩
  | eat target_id =>
    simp only [resolveAction] at h
    split at h
    · cases h
      exact ⟨c, hc, rfl⟩
    · split at h
      · exact absurd h (by simp)
      · split at h
        · cases h
          exact ⟨_, by dsimp only; exact List.get?_set_eq_of_lt _ hlen, by rfl⟩
        · split at h <;> split at h <;> cases h <;>
            exact ⟨_, by dsimp only; exact List.get?_set_eq_of_lt _ hlen, by rfl⟩
  | flee dx dy =>
    simp only [resolveAction] at h
    cases h
    exact ⟨_, by dsimp only; exact List.get?_set_eq_of_lt _ hlen, by rfl⟩
  | attack target_id =>
    simp only [resolveAction] at h
    split at h
    · cases h
      exact ⟨c, hc, rfl⟩
    · rename_i j t hf
      split at h
      · rename_i hca
        cases h
        have hgj : w.cells.get? j = some t := by
          cases target_id with
          | none =>
            dsimp only at hf
            exact (findWithIdx_some hf).2
          | some tid =>
            dsimp only at hf
            split at hf <;> exact (findWithIdx_some hf).2
        have hji : j ≠ i := by
          intro hji
          subst hji
          rw [hc] at hgj
          cases hgj
          exact can_attack_ne hca rfl
        refine ⟨(resolve_combat c t).attacker, ?_, resolve_combat_attacker_age c t⟩
        dsimp only
        rw [List.get?_set_ne _ _ hji]
        exact List.get?_set_eq_of_lt _ hlen
      · cases h
        exact ⟨c, hc, rfl⟩
  | reproduce =>
    simp only [resolveAction] at h
    split at h
    · exact absurd h (by simp)
    · split at h
      · exact absurd h (by simp)
      · rename_i j p hsel
        split at h
        · exact absurd h (by simp)
        · split at h
          · exact absurd h (by simp)
          · split at h
            · cases h
              exact ⟨c, hc, rfl⟩
            · cases h
              have hji : j ≠ i := by
                intro hji
                subst hji
                obtain ⟨hg, hne, -⟩ := select_partner_props hsel
                rw [hc] at hg
                cases hg
                exact hne rfl
              have hilen : i < ((w.cells.set i
                  ({ c with energy := c.energy - reproduce_cost c.stage })).set j
                  ({ p with energy := p.energy - reproduce_cost c.stage })).length := by
                simpa using hlen
              refine ⟨{ c with energy := c.energy - reproduce_cost c.stage }, ?_, ?_⟩
              · dsimp only
                rw [List.get?_append hilen]
                rw [List.get?_set_ne _ _ hji]
                exact List.get?_set_eq_of_lt _ hlen
              · rfl
  | drink target_id =>
    simp only [resolveAction] at h
    cases h
    exact ⟨c, hc, rfl⟩
  | hide target_id =>
    simp only [resolveAction] at h
    cases h
    exact ⟨c, hc, rfl⟩

theorem processCreature_resolved {w : WorldState} {i : Nat} {c : Creature}
    {a : Action} {orc : Oracle} {w1 : WorldState} {c1 : Creature}
    (hc : w.cells.get? i = some c) (halive : c.alive = true)
    (h : resolveAction w i c a orc = some w1)
    (hg1 : w1.cells.get? i = some c1) :
    processCreature w i (some a) orc
      = { w1 with cells := w1.cells.set i (post_action c1) } := by
  simp only [processCreature, hc, halive, not_true, ite_false, h, hg1]

/-! ## Claim theorems -/

/-- C10: combat resolution preserves the energy bounds — starting from
energies in `[0, 100]`, the defender ends with energy `≥ 0` (exactly `0`
and dead when killed) and the attacker's energy stays in `[0, 100]`: the
carnivore kill gain is clamped at `100` and the attack cost at `0`. -/
theorem C10_combat_energy_bounds (attacker defender : Creature)
    (_ha0 : 0 ≤ attacker.energy) (ha1 : attacker.energy ≤ 100)
    (_hd0 : 0 ≤ defender.energy) (_hd1 : defender.energy ≤ 100) :
    0 ≤ (resolve_combat attacker defender).defender.energy ∧
    ((resolve_combat attacker defender).defender_killed = true →
      (resolve_combat attacker defender).defender.energy = 0 ∧
      (resolve_combat attacker defender).defender.alive = false) ∧
    0 ≤ (resolve_combat attacker defender).attacker.energy ∧
    (resolve_combat attacker defender).attacker.energy ≤ 100 := by
  simp only [resolve_combat]
  split_ifs with h1 h2
  · exact ⟨le_refl 0, fun _ => ⟨rfl, rfl⟩, by dsimp; omega, by dsimp; omega⟩
  · exact ⟨le_refl 0, fun _ => ⟨rfl, rfl⟩, by dsimp; omega, by dsimp; omega⟩
  · refine ⟨by dsimp; omega, fun hco => absurd hco (by simp), by dsimp; omega,
      by dsimp; omega⟩

/-- C10 witness: the bounds theorem applied at a concrete attacker and
defender. -/
theorem C10_witness :
    0 ≤ (resolve_combat atk3 def3).defender.energy ∧
    ((resolve_combat atk3 def3).defender_killed = true →
      (resolve_combat atk3 def3).defender.energy = 0 ∧
      (resolve_combat atk3 def3).defender.alive = false) ∧
    0 ≤ (resolve_combat atk3 def3).attacker.energy ∧
    (resolve_combat atk3 def3).attacker.energy ≤ 100 :=
  C10_combat_energy_bounds atk3 def3 (by decide) (by decide) (by decide) (by decide)

/-- C3 counterexample: a carnivore (energy 60, stage 1, speed 3) kills a
defender of energy 20 with 27 damage.  The code yields an energy gain of
`20 = min(50, 15 + 27 // 5)`, while the claimed formula
`min(50, stage·15 + (pre-death energy + damage) / 5)` gives
`24 = min(50, 15 + 47 // 5)`: the claim is false because the defender's
energy was already zeroed when the gain was computed. -/
theorem C3_counterexample :
    atk3.diet = "carnivore" ∧
    (resolve_combat atk3 def3).defender_killed = true ∧
    (resolve_combat atk3 def3).energy_gained = 20 ∧
    min 50 (def3.stage * 15 + (def3.energy + (resolve_combat atk3 def3).damage).fdiv 5) = 24 ∧
    (20 : Int) ≠ 24 := by decide

/-- C3 (amended): when a carnivore's attack kills the defender, the
attacker's gain is `min(50, defender.stage·15 + damage // 5)` — the
defender's pre-death energy does not contribute, because the defender's
energy has already been set to 0 — and the attacker's resulting energy
never exceeds 100. -/
theorem C3_kill_gain_amended (attacker defender : Creature)
    (hdiet : attacker.diet = "carnivore")
    (hkill : (resolve_combat attacker defender).defender_killed = true)
    (_ha : attacker.energy ≤ 100) :
    (resolve_combat attacker defender).energy_gained
        = min 50 (defender.stage * 15 + ((resolve_combat attacker defender).damage).fdiv 5) ∧
    (resolve_combat attacker defender).attacker.energy ≤ 100 := by
  simp only [resolve_combat] at hkill ⊢
  split_ifs at hkill ⊢ with h1
  constructor
  · dsimp; norm_num
  · dsimp; omega

/-- C3 witness: the amended gain formula at the concrete kill. -/
theorem C3_witness :
    atk3.diet = "carnivore" ∧
    (resolve_combat atk3 def3).defender_killed = true ∧
    atk3.energy ≤ 100 ∧
    ((resolve_combat atk3 def3).energy_gained
        = min 50 (def3.stage * 15 + ((resolve_combat atk3 def3).damage).fdiv 5) ∧
      (resolve_combat atk3 def3).attacker.energy ≤ 100) :=
  ⟨by decide, by decide, by decide,
    C3_kill_gain_amended atk3 def3 (by decide) (by decide) (by decide)⟩

/-- C1: the energy invariant `0 ≤ energy` is violated by the code — a
living creature with energy 1 and speed 1 that flees pays the flee cost 3
with no lower clamp, ending the tick retained in the population with
energy `-2` (it is marked dead but its energy is never reset to 0). -/
theorem C1_energy_bound_violated_at_flee :
    ((processCreature w_flee 0 (some (Action.flee 0 1)) orc0).cells.map (·.energy)) = [-2] ∧
    ((processCreature w_flee 0 (some (Action.flee 0 1)) orc0).cells.map (·.alive)) = [false] ∧
    ¬ (0 ≤ (-2 : Int)) := by decide

/-- C8: a stage-1 agent with age 11 and energy 85 is evolution-eligible,
and the stage transition yields a creature with the same id, stage 2,
energy `35 = 85 - 50`, in a newly created colony whose sole member it
is. -/
theorem C8_stage1_evolution_scenario (c : Creature)
    (colonies : Int → Option Colony)
    (hstage : c.stage = 1) (hage : c.age = 11) (hE : c.energy = 85) :
    can_evolve c colonies = true ∧
    ∃ nc col, evolve_creature_stage1 c colonies = some (nc, col) ∧
      nc.id = c.id ∧ nc.stage = 2 ∧ nc.energy = 35 ∧ col.members = [c.id] := by
  have hce : can_evolve c colonies = true := by
    unfold can_evolve
    rw [if_pos hstage, hage, hE]
    decide
  refine ⟨hce, ?_⟩
  unfold evolve_creature_stage1
  rw [if_neg (by simp [hce])]
  rw [if_neg (by rw [hE]; decide)]
  refine ⟨_, _, rfl, rfl, rfl, ?_, ?_⟩
  · show c.energy - evolve_cost = 35
    rw [hE]; decide
  · show ((multicellular_init c.id c.traits c.x c.y c.player_id).2).members = [c.id]
    simp [multicellular_init, colony_add_member, creature_init]

/-- C8 witness: the scenario at a concrete creature. -/
theorem C8_witness :
    c8.stage = 1 ∧ c8.age = 11 ∧ c8.energy = 85 ∧
    (can_evolve c8 (fun _ => none) = true ∧
      ∃ nc col, evolve_creature_stage1 c8 (fun _ => none) = some (nc, col) ∧
        nc.id = c8.id ∧ nc.stage = 2 ∧ nc.energy = 35 ∧ col.members = [c8.id]) :=
  ⟨rfl, rfl, rfl, C8_stage1_evolution_scenario c8 (fun _ => none) rfl rfl rfl⟩

/-- C4: for a move by a living agent, the target is the direction-shifted
position clamped to the grid; the move is rejected (position and energy
unchanged, only the universal death check and ageing run) exactly when
another living agent occupies the target cell, and otherwise the agent
moves there and pays the movement cost. -/
theorem C4_move_semantics (w : WorldState) (i : Nat) (c : Creature)
    (dx dy : Int) (orc : Oracle)
    (hc : w.cells.get? i = some c) (halive : c.alive = true) :
    ((∃ o ∈ w.cells, o.alive = true ∧ o.id ≠ c.id ∧
        o.x = clamp_coord w.width (c.x + dx) ∧ o.y = clamp_coord w.height (c.y + dy)) →
      processCreature w i (some (.move dx dy)) orc
        = { w with cells := w.cells.set i (post_action c) }) ∧
    (¬ (∃ o ∈ w.cells, o.alive = true ∧ o.id ≠ c.id ∧
        o.x = clamp_coord w.width (c.x + dx) ∧ o.y = clamp_coord w.height (c.y + dy)) →
      processCreature w i (some (.move dx dy)) orc
        = { w with cells := w.cells.set i (post_action (moved w c dx dy)) }) := by
  have hlen : i < w.cells.length := length_pos_of_get? hc
  have hcoll : (w.cells.any fun o =>
      o.alive && !(decide (o.id = c.id)) &&
        decide (o.x = clamp_coord w.width (c.x + dx)) &&
        decide (o.y = clamp_coord w.height (c.y + dy))) = true
      ↔ ∃ o ∈ w.cells, o.alive = true ∧ o.id ≠ c.id ∧
          o.x = clamp_coord w.width (c.x + dx) ∧
          o.y = clamp_coord w.height (c.y + dy) := by
    simp [List.any_eq_true, and_assoc]
  constructor
  · intro hocc
    have hres : resolveAction w i c (.move dx dy) orc = some w := by
      simp only [resolveAction]
      rw [if_pos (hcoll.mpr hocc)]
    exact processCreature_resolved hc halive hres hc
  · intro hocc
    have hres : resolveAction w i c (.move dx dy) orc
        = some { w with cells := w.cells.set i (moved w c dx dy) } := by
      simp only [resolveAction]
      rw [if_neg (fun hcontra => hocc (hcoll.mp hcontra))]
      rfl
    have hg1 : ({ w with cells := w.cells.set i (moved w c dx dy) } :
          WorldState).cells.get? i = some (moved w c dx dy) := by
      dsimp only
      exact List.get?_set_eq_of_lt _ hlen
    rw [processCreature_resolved hc halive hres hg1]
    dsimp only
    rw [List.set_set]

/-- C4 witness: an unblocked move of the concrete actor east, with the
blocked-target predicate refuted by evaluation. -/
theorem C4_witness :
    w_move.cells.get? 0 = some c4a ∧ c4a.alive = true ∧
    ¬ (∃ o ∈ w_move.cells, o.alive = true ∧ o.id ≠ c4a.id ∧
        o.x = clamp_coord w_move.width (c4a.x + 1) ∧
        o.y = clamp_coord w_move.height (c4a.y + 0)) ∧
    processCreature w_move 0 (some (.move 1 0)) orc0
      = { w_move with cells := w_move.cells.set 0 (post_action (moved w_move c4a 1 0)) } :=
  ⟨rfl, rfl, by decide,
    (C4_move_semantics w_move 0 c4a 1 0 orc0 rfl rfl).2 (by decide)⟩

/-- C6 counterexample: a living agent with no action for the tick is
skipped by `continue` before the age increment, so its age stays 7 —
refuting the claim that age increases by exactly 1 even when the action
is absent. -/
theorem C6_counterexample :
    (processCreature w_age 0 none orc0).cells.map (·.age) = [7] ∧
    (7 : Int) ≠ 7 + 1 := by decide

/-- C6 (amended): age increases by exactly 1 for a living agent whose
action resolution runs to completion — including blocked moves and failed
attacks — but an agent whose tick hits a `continue` (no action, an eat
blocked by a resource claim, or a failed reproduce precheck) is left
entirely unchanged, age included. -/
theorem C6_age_increment_amended (w : WorldState) (i : Nat) (c : Creature)
    (orc : Oracle) (hc : w.cells.get? i = some c) (halive : c.alive = true) :
    processCreature w i none orc = w ∧
    (∀ a, resolveAction w i c a orc = none → processCreature w i (some a) orc = w) ∧
    (∀ a w1, resolveAction w i c a orc = some w1 →
      ∃ cf, (processCreature w i (some a) orc).cells.get? i = some cf ∧
        cf.age = c.age + 1) := by
  refine ⟨?_, ?_, ?_⟩
  · simp only [processCreature, hc, halive, not_true, ite_false]
  · intro a hnone
    simp only [processCreature, hc, halive, not_true, ite_false, hnone]
  · intro a w1 hsome
    obtain ⟨c1, hg1, hage⟩ := resolveAction_actor hc hsome
    refine ⟨post_action c1, ?_, by rw [post_action_age, hage]⟩
    rw [processCreature_resolved hc halive hsome hg1]
    dsimp only
    exact List.get?_set_eq_of_lt _ (length_pos_of_get? hg1)

/-- C6 witness: the amended ageing behaviour at a concrete world — the
no-action case and a completed flee both behave as stated. -/
theorem C6_witness :
    w_age.cells.get? 0 = some c6a ∧
    (processCreature w_age 0 none orc0 = w_age ∧
      (∀ a, resolveAction w_age 0 c6a a orc0 = none →
        processCreature w_age 0 (some a) orc0 = w_age) ∧
      (∀ a w1, resolveAction w_age 0 c6a a orc0 = some w1 →
        ∃ cf, (processCreature w_age 0 (some a) orc0).cells.get? 0 = some cf ∧
          cf.age = c6a.age + 1)) :=
  ⟨rfl, C6_age_increment_amended w_age 0 c6a orc0 rfl rfl⟩

/-- C5 counterexample: the actor has energy 90 and an eligible partner
(`c5c`: adjacent, living, energy 90) exists, yet the reproduce action is
a complete no-op — the code selected the *first* adjacent living creature
(`c5b`, energy 10) without an energy filter and gave up, refuting the
claim that resolution proceeds whenever some energy-≥88 partner exists
(the oracle roll is 0, so a compatibility roll would have succeeded and
changed the world). -/
theorem C5_counterexample :
    processCreature w_rep 0 (some Action.reproduce) orc0 = w_rep ∧
    (w_rep.cells.get? 0).map (·.energy) = some 90 ∧
    (∃ o ∈ w_rep.cells, o.id ≠ c5a.id ∧ o.alive = true ∧
        |o.x - c5a.x| ≤ 1 ∧ |o.y - c5a.y| ≤ 1 ∧ 88 ≤ o.energy) :=
  ⟨rfl, rfl, by decide⟩

/-- C5 (amended): the partner of a reproduce action is the first living
agent at the actor's position, else the first living agent at Chebyshev
distance ≤ 1, in population order and with no energy filter; resolution
is a no-op when no such agent exists or when the *selected* agent has
energy < 88 (even if another eligible partner is adjacent); when the
selected partner has energy ≥ 88, the compatibility roll passes and a
free adjacent cell exists, an offspring is produced; and a successful
reproduction implies both the actor and the selected partner had energy
≥ 88. -/
theorem C5_reproduce_partner_amended (w : WorldState) (i : Nat) (c : Creature)
    (orc : Oracle) (hE : 88 ≤ c.energy) :
    (select_partner w.cells c = none → resolveAction w i c .reproduce orc = none) ∧
    (∀ j p, select_partner w.cells c = some (j, p) → p.energy < 88 →
      resolveAction w i c .reproduce orc = none) ∧
    (∀ j p, select_partner w.cells c = some (j, p) → 88 ≤ p.energy →
      roll_fails orc (compatibility10 c p) = false →
      ∀ pos, findFreeCell w c.x c.y orc.dirs = some pos →
      ∃ w1, resolveAction w i c .reproduce orc = some w1 ∧
        w1.cells.length = w.cells.length + 1) ∧
    (∀ w1, resolveAction w i c .reproduce orc = some w1 →
      w1.cells.length = w.cells.length + 1 →
      ∃ j p, select_partner w.cells c = some (j, p) ∧ 88 ≤ p.energy ∧
        p.alive = true ∧ p.id ≠ c.id ∧ |p.x - c.x| ≤ 1 ∧ |p.y - c.y| ≤ 1) := by
  have hlt : ¬ c.energy < 88 := by omega
  refine ⟨?_, ?_, ?_, ?_⟩
  · intro hnone
    simp only [resolveAction, if_neg hlt, hnone]
  · intro j p hsel hpe
    simp only [resolveAction, if_neg hlt, hsel]
    rw [if_pos hpe]
  · intro j p hsel hpe hroll pos hpos
    simp only [resolveAction, if_neg hlt, hsel]
    rw [if_neg (by omega : ¬ p.energy < 88)]
    rw [if_neg (by simp [hroll])]
    rw [hpos]
    refine ⟨_, rfl, ?_⟩
    simp
  · intro w1 hres hlen1
    simp only [resolveAction, if_neg hlt] at hres
    cases hsel : select_partner w.cells c with
    | none => rw [hsel] at hres; exact absurd hres (by simp)
    | some q =>
      obtain ⟨j, p⟩ := q
      rw [hsel] at hres
      dsimp only at hres
      by_cases hpe : p.energy < 88
      · rw [if_pos hpe] at hres
        exact absurd hres (by simp)
      · rw [if_neg hpe] at hres
        by_cases hr : roll_fails orc (compatibility10 c p) = true
        · rw [if_pos hr] at hres
          exact absurd hres (by simp)
        · rw [if_neg hr] at hres
          cases hfc : findFreeCell w c.x c.y orc.dirs with
          | none =>
            rw [hfc] at hres
            cases hres
            omega
          | some pos =>
            rw [hfc] at hres
            obtain ⟨hg, hne, hal, hx, hy⟩ := select_partner_props hsel
            exact ⟨j, p, rfl, by omega, hal, hne, hx, hy⟩

/-- C5 witness: the amended behaviour at the concrete world — the code
selects `c5b` (energy 10) and the action is a no-op. -/
theorem C5_witness :
    88 ≤ c5a.energy ∧
    ((select_partner w_rep.cells c5a = none →
        resolveAction w_rep 0 c5a .reproduce orc0 = none) ∧
      (∀ j p, select_partner w_rep.cells c5a = some (j, p) → p.energy < 88 →
        resolveAction w_rep 0 c5a .reproduce orc0 = none) ∧
      (∀ j p, select_partner w_rep.cells c5a = some (j, p) → 88 ≤ p.energy →
        roll_fails orc0 (compatibility10 c5a p) = false →
        ∀ pos, findFreeCell w_rep c5a.x c5a.y orc0.dirs = some pos →
        ∃ w1, resolveAction w_rep 0 c5a .reproduce orc0 = some w1 ∧
          w1.cells.length = w_rep.cells.length + 1) ∧
      (∀ w1, resolveAction w_rep 0 c5a .reproduce orc0 = some w1 →
        w1.cells.length = w_rep.cells.length + 1 →
        ∃ j p, select_partner w_rep.cells c5a = some (j, p) ∧ 88 ≤ p.energy ∧
          p.alive = true ∧ p.id ≠ c5a.id ∧ |p.x - c5a.x| ≤ 1 ∧ |p.y - c5a.y| ≤ 1)) :=
  ⟨by decide, C5_reproduce_partner_amended w_rep 0 c5a orc0 (by decide)⟩

/-- C7 counterexample: one non-critical agent whose rule-engine action
would be `eat 7`; the batch inference call times out, the individual
retry call succeeds with `move`, and `decide_batch` returns that `move`
— so a further inference call *was* issued after the timeout and the
agent's action was not produced by the rule engine, refuting the claim. -/
theorem C7_counterexample :
    decide_batch [(c7, ws7)] .timeout (fun _ => .ok (.move 0 1)) orc0
      = [(1, Action.move 0 1)] ∧
    rule_based_decision c7 ws7 orc0 = Action.eat (some 7) ∧
    Action.move 0 1 ≠ Action.eat (some 7) := by decide

/-- C7 (amended): a timed-out or failed single-agent inference call falls
back to the rule engine with no retry and no surfaced error; but on a
*batch* timeout or failure every affected agent is retried with one
individual inference call (with no timeout of its own), and only the
agents whose individual call also fails receive the rule-engine action —
in every case `decide_batch` returns an action for each agent rather
than an error. -/
theorem C7_inference_fallback_amended :
    (∀ (cell : Creature) (ws : WorldView) (orc : Oracle),
        decide_action cell ws .timeout orc = rule_based_decision cell ws orc ∧
        decide_action cell ws .failure orc = rule_based_decision cell ws orc) ∧
    (∀ (pairs : List (Creature × WorldView)) (indivOut : Int → LLMOutcome Action)
        (orc : Oracle) (b : LLMOutcome (Int → Option Action)),
        b = .timeout ∨ b = .failure →
        decide_batch pairs b indivOut orc
          = pairs.map fun pr =>
              (pr.1.id, match indivOut pr.1.id with
                | .ok a => a
                | .timeout => rule_based_decision pr.1 pr.2 orc
                | .failure => rule_based_decision pr.1 pr.2 orc)) := by
  constructor
  · intro cell ws orc
    unfold decide_action
    split_ifs <;> exact ⟨rfl, rfl⟩
  · rintro pairs ind orc b (rfl | rfl) <;>
      · unfold decide_batch
        by_cases hp : pairs.isEmpty
        · rw [if_pos hp]
          rw [List.isEmpty_iff.mp hp]
          rfl
        · rw [if_neg hp]

/-- C7 witness: the amended fallback at the concrete batch — batch
timeout, individual failure, rule-engine action. -/
theorem C7_witness :
    decide_batch [(c7, ws7)] .timeout (fun _ => .failure) orc0
      = [(c7.id, rule_based_decision c7 ws7 orc0)] := by
  rw [C7_inference_fallback_amended.2 [(c7, ws7)] (fun _ => .failure) orc0
    .timeout (Or.inl rfl)]
  rfl

theorem bucket_window {x ox r : Int} (hr : 0 ≤ r) (h : (ox - x)^2 ≤ r * r) :
    x.fdiv cell_size - (r + cell_size - 1).fdiv cell_size ≤ ox.fdiv cell_size ∧
    ox.fdiv cell_size ≤ x.fdiv cell_size + (r + cell_size - 1).fdiv cell_size := by
  have habs : -r ≤ ox - x ∧ ox - x ≤ r := by
    constructor <;> nlinarith [sq_nonneg (ox - x - r), sq_nonneg (ox - x + r)]
  simp only [cell_size]
  rw [Int.fdiv_eq_ediv _ (by norm_num), Int.fdiv_eq_ediv _ (by norm_num),
    Int.fdiv_eq_ediv _ (by norm_num)]
  obtain ⟨hl, hu⟩ := habs
  constructor <;> omega

theorem dist_ok_in_window {x y radius : Int} {o : IndexEntry} (hr : 0 ≤ radius)
    (h : dist_ok x y radius o = true) : in_window x y radius o = true := by
  unfold dist_ok at h
  rw [decide_eq_true_eq] at h
  have hx : (o.x - x)^2 ≤ radius * radius := by nlinarith [sq_nonneg (o.y - y)]
  have hy : (o.y - y)^2 ≤ radius * radius := by nlinarith [sq_nonneg (o.x - x)]
  obtain ⟨hx1, hx2⟩ := bucket_window hr hx
  obtain ⟨hy1, hy2⟩ := bucket_window hr hy
  unfold in_window
  simp only [Bool.and_eq_true, decide_eq_true_eq]
  exact ⟨⟨⟨hx1, hx2⟩, hy1⟩, hy2⟩

/-- C2: for every index produced by `rebuild`, `get_nearby` returns
exactly the brute-force distance scan (the bucket window always covers
the Euclidean ball), each returned record carries the exact squared
distance, and with distinct indexed ids the result has no duplicates. -/
theorem C2_spatial_query_exact (creatures : List Creature)
    (food : List FoodItem) (entries : List IndexEntry) (x y radius : Int)
    (obj_type : Option String)
    (_hidx : entries = rebuild creatures food) (hr : 0 ≤ radius)
    (hnd : (entries.map (·.id)).Nodup) :
    get_nearby entries x y radius obj_type
        = brute_force_scan entries x y radius obj_type ∧
    (∀ rec ∈ get_nearby entries x y radius obj_type,
        rec.dist_sq = (rec.x - x)^2 + (rec.y - y)^2) ∧
    ((get_nearby entries x y radius obj_type).map (·.id)).Nodup := by
  refine ⟨?_, ?_, ?_⟩
  · unfold get_nearby brute_force_scan
    congr 1
    apply List.filter_congr
    intro o _
    by_cases hd : dist_ok x y radius o = true
    · rw [hd, dist_ok_in_window hr hd]
      simp
    · have hd' : dist_ok x y radius o = false := by
        simpa using hd
      rw [hd']
      simp
  · intro rec hrec
    unfold get_nearby at hrec
    obtain ⟨o, -, rfl⟩ := List.mem_map.mp hrec
    rfl
  · unfold get_nearby
    rw [List.map_map]
    show ((entries.filter _).map (fun o => o.id)).Nodup
    exact List.Sublist.nodup
      (List.Sublist.map _ (List.filter_sublist entries)) hnd

/-- C2 witness: the equivalence at a concrete rebuilt index and query. -/
theorem C2_witness :
    (0 : Int) ≤ 3 ∧
    ((rebuild idx_creatures idx_food).map (·.id)).Nodup ∧
    (get_nearby (rebuild idx_creatures idx_food) 3 3 3 none
        = brute_force_scan (rebuild idx_creatures idx_food) 3 3 3 none ∧
      (∀ rec ∈ get_nearby (rebuild idx_creatures idx_food) 3 3 3 none,
          rec.dist_sq = (rec.x - 3)^2 + (rec.y - 3)^2) ∧
      ((get_nearby (rebuild idx_creatures idx_food) 3 3 3 none).map (·.id)).Nodup) :=
  ⟨by decide, by decide,
    C2_spatial_query_exact idx_creatures idx_food _ 3 3 3 none rfl
      (by decide) (by decide)⟩

theorem RInv_init (cells0 : List Int) (hnd : cells0.Nodup)
    (hlt : ∀ a ∈ cells0, a < 1000) : RInv (RInit cells0) := by
  constructor
  · intro a ha
    simp only [RInit, List.map_nil, List.nil_append] at ha ⊢
    exact hlt a ha
  · simpa [RInit] using hnd

theorem RInv_step {s s' : RWorld} (hinv : RInv s) (h : WStep s s') : RInv s' := by
  obtain ⟨hbound, hnd⟩ := hinv
  cases h with
  | spawn_food px py pt pv =>
    constructor
    · intro a ha
      dsimp only at ha ⊢
      simp only [List.map_append, List.map_cons, List.map_nil, List.mem_append,
        List.mem_singleton, List.append_assoc] at ha
      rcases ha with ha | ha | ha
      · have := hbound a (List.mem_append.mpr (Or.inl ha))
        omega
      · omega
      · have := hbound a (List.mem_append.mpr (Or.inr ha))
        omega
    · dsimp only
      simp only [List.map_append, List.map_cons, List.map_nil, List.append_assoc]
      show (s.food.map (·.id) ++ (s.counter :: s.cells)).Nodup
      rw [List.nodup_middle]
      refine List.Nodup.cons ?_ hnd
      intro hmem
      exact absurd (hbound s.counter hmem) (by omega)
  | spawn_creature =>
    constructor
    · intro a ha
      dsimp only at ha ⊢
      simp only [List.mem_append, List.mem_singleton] at ha
      rcases ha with ha | ha | ha
      · have := hbound a (List.mem_append.mpr (Or.inl ha))
        omega
      · have := hbound a (List.mem_append.mpr (Or.inr ha))
        omega
      · omega
    · dsimp only
      show (s.food.map (·.id) ++ (s.cells ++ [s.counter])).Nodup
      rw [← List.append_assoc]
      rw [List.nodup_append]
      refine ⟨hnd, List.nodup_singleton _, ?_⟩
      intro a hmem hmem1
      rw [List.mem_singleton] at hmem1
      subst hmem1
      exact absurd (hbound _ hmem) (by omega)
  | eat_food j f hf =>
    have hsub : List.Sublist ((s.food.eraseIdx j).map (·.id) ++ s.cells)
        (s.food.map (·.id) ++ s.cells) :=
      List.Sublist.append_right
        (List.Sublist.map _ (List.eraseIdx_sublist s.food j)) s.cells
    exact ⟨fun a ha => hbound a (hsub.subset ha), List.Sublist.nodup hsub hnd⟩
  | flood cx cy r =>
    have hsub : List.Sublist
        ((s.food.filter (fun f =>
            decide (r * r < (f.x - cx)^2 + (f.y - cy)^2))).map (·.id) ++ s.cells)
        (s.food.map (·.id) ++ s.cells) :=
      List.Sublist.append_right
        (List.Sublist.map _ (List.filter_sublist s.food)) s.cells
    exact ⟨fun a ha => hbound a (hsub.subset ha), List.Sublist.nodup hsub hnd⟩

theorem RInv_reach {s t : RWorld} (hinv : RInv s) (h : RReach s t) : RInv t := by
  induction h with
  | refl => exact hinv
  | tail _ hstep ih => exact RInv_step ih hstep

theorem RFresh_step {cid : Int} {s s' : RWorld} (hf : RFresh cid s)
    (h : WStep s s') : RFresh cid s' := by
  obtain ⟨hfood, hcells, hlt⟩ := hf
  cases h with
  | spawn_food px py pt pv =>
    refine ⟨?_, hcells, by dsimp only; omega⟩
    dsimp only
    simp only [List.map_append, List.map_cons, List.map_nil, List.mem_append,
      List.mem_singleton]
    rintro (hmem | hmem)
    · exact hfood hmem
    · omega
  | spawn_creature =>
    refine ⟨hfood, ?_, by dsimp only; omega⟩
    dsimp only
    simp only [List.mem_append, List.mem_singleton]
    rintro (hmem | hmem)
    · exact hcells hmem
    · omega
  | eat_food j f hf' =>
    refine ⟨?_, hcells, hlt⟩
    intro hmem
    exact hfood ((List.Sublist.map (·.id) (List.eraseIdx_sublist s.food j)).subset hmem)
  | flood cx cy r =>
    refine ⟨?_, hcells, hlt⟩
    intro hmem
    exact hfood ((List.Sublist.map (·.id) (List.filter_sublist s.food)).subset hmem)

theorem RFresh_reach {cid : Int} {s t : RWorld} (hf : RFresh cid s)
    (h : RReach s t) : RFresh cid t := by
  induction h with
  | refl => exact hf
  | tail _ hstep ih => exact RFresh_step ih hstep

theorem get_nearby_id_sub {entries : List IndexEntry} {x y radius : Int}
    {k : Option String} {rec : NearbyRec}
    (h : rec ∈ get_nearby entries x y radius k) :
    ∃ o ∈ entries, o.id = rec.id := by
  unfold get_nearby at h
  obtain ⟨o, ho, rfl⟩ := List.mem_map.mp h
  exact ⟨o, (List.mem_filter.mp ho).1, rfl⟩

theorem rebuild_id_mem {cs : List Creature} {fs : List FoodItem}
    {o : IndexEntry} (h : o ∈ rebuild cs fs) :
    (∃ cr ∈ cs, cr.id = o.id) ∨ (∃ f ∈ fs, f.id = o.id) := by
  unfold rebuild at h
  rcases List.mem_append.mp h with h | h
  · obtain ⟨cr, hcr, rfl⟩ := List.mem_map.mp h
    exact Or.inl ⟨cr, (List.mem_filter.mp hcr).1, rfl⟩
  · obtain ⟨f, hfm, rfl⟩ := List.mem_map.mp h
    exact Or.inr ⟨f, hfm, rfl⟩

/-- C9: once a food item is consumed (by an eat action or a flood), its
id never reappears: in every subsequent reachable state the id is absent
from the food list, was never handed to a creature, stays strictly below
the id counter (so no later spawn can re-assign it — the counter only
grows), and no spatial-index query over a rebuilt index can return it. -/
theorem C9_resource_id_never_reused (cells0 : List Int) (s s' t : RWorld)
    (cid : Int) (hnd : cells0.Nodup) (hsmall : ∀ a ∈ cells0, a < 1000)
    (h1 : RReach (RInit cells0) s) (h2 : WStep s s')
    (hin : cid ∈ s.food.map (·.id)) (hout : cid ∉ s'.food.map (·.id))
    (h3 : RReach s' t) :
    cid ∉ t.food.map (·.id) ∧ cid ∉ t.cells ∧ cid < t.counter ∧
    (∀ (cs : List Creature) (x y radius : Int) (k : Option String),
      (∀ cr ∈ cs, cr.id ∈ t.cells) →
      ∀ rec ∈ get_nearby (rebuild cs t.food) x y radius k, rec.id ≠ cid) := by
  obtain ⟨hbound, hnodup⟩ := RInv_reach (RInv_init cells0 hnd hsmall) h1
  have hcidlt : cid < s.counter := hbound cid (List.mem_append.mpr (Or.inl hin))
  have hcells : cid ∉ s.cells := fun hmem =>
    List.disjoint_of_nodup_append hnodup hin hmem
  have hfresh' : RFresh cid s' := by
    cases h2 with
    | spawn_food px py pt pv =>
      exfalso
      apply hout
      dsimp only
      simp only [List.map_append, List.map_cons, List.map_nil, List.mem_append,
        List.mem_singleton]
      exact Or.inl hin
    | spawn_creature => exact absurd hin hout
    | eat_food j f hf => exact ⟨hout, hcells, by dsimp only; omega⟩
    | flood cx cy r => exact ⟨hout, hcells, by dsimp only; omega⟩
  obtain ⟨hft, hct, hlt⟩ := RFresh_reach hfresh' h3
  refine ⟨hft, hct, hlt, ?_⟩
  intro cs x y radius k hcs rec hrec heq
  obtain ⟨o, ho, hoid⟩ := get_nearby_id_sub hrec
  rcases rebuild_id_mem ho with ⟨cr, hcr, hcrid⟩ | ⟨f, hfm, hfid⟩
  · have : cr.id ∈ t.cells := hcs cr hcr
    rw [hcrid, hoid, heq] at this
    exact hct this
  · apply hft
    rw [List.mem_map]
    exact ⟨f, hfm, by rw [hfid, hoid, heq]⟩

/-- C9 witness: a concrete trace — id 1000 is spawned, eaten, and after a
further spawn it is absent from the food list, not a creature id, and
below the counter. -/
theorem C9_witness :
    (1000 : Int) ∉ rw_t.food.map (·.id) ∧ (1000 : Int) ∉ rw_t.cells ∧
      (1000 : Int) < rw_t.counter := by
  have h := C9_resource_id_never_reused [1] rw_s1 rw_s2 rw_t 1000 (by decide)
    (by decide)
    (Relation.ReflTransGen.single (WStep.spawn_food (RInit [1]) 3 4 "apple" 30))
    (WStep.eat_food rw_s1 0 ⟨1000, 3, 4, "apple", 30⟩ rfl)
    (by decide) (by decide)
    (Relation.ReflTransGen.single (WStep.spawn_food rw_s2 5 5 "banana" 30))
  exact ⟨h.1, h.2.1, h.2.2.1⟩

end Kekita
